import Mathlib

/-!
A shallow embedding of the water-use data cleaning/derivation pipeline of the
Data-to-Knowledge/WaterUseQA repository.

The embedded code is the core transform that recurs in the analysis scripts:

* "Create time-series plots/v2/Analyse Time Series - Single WAP V2.py"
  (convert_water_use_data, summarise_negative_values, remove_negative_values,
  calculate_spike_parameters, detect_spikes, generate_daily_stats,
  generate_monthly_stats, process_plot_data);
* "CreateTimeSeriesPlots/AnalyseTimeSeriesWithConsentConditionsWAPListDateV1.py"
  (the same functions plus generate_extraction_stats and combine_monthly_stats);
* the TYPE_CORRECTED_COMBINED_METERS common table expression of
  "water_use_data__snowflake_extraction.py".

Modelling conventions.

* A pandas dataframe of readings is a Lean list of records; row order is list
  order.  Numeric values are rationals (the scripts' floats are idealized as
  exact arithmetic).
* A float NaN cell is modelled as Option.none.  Every pandas comparison with
  NaN is false, so the embedded boolean tests (volLt0, volGe0, volPos,
  exceedsThreshold) return false on none, exactly as the masks
  df.Vol < 0, df.Vol >= 0, df.Vol > 0 and df.Vol > mean + sd*k do on NaN.
* pandas Series.std() (ddof = 1) is an irrational square root in general, so
  calculate_spike_parameters returns the mean together with the SQUARE of the
  standard deviation (the sample variance listVar).  The two tests of
  detect_spikes that mention sd, namely sd >= 1 and Vol > mean + sd*k, are
  embedded by the exact equivalent rational tests 1 <= sdSq and
  (mean < Vol and k^2 * sdSq < (Vol - mean)^2); the theorems
  exceedsThreshold_iff_sqrt and one_le_listVar_iff_sqrt prove that these
  coincide with the source comparisons phrased with Real.sqrt.  For the
  degenerate samples where pandas produces NaN (mean of an empty subset,
  std of a subset with fewer than two elements) rational division by zero
  yields 0 here, and in both systems the guard of detect_spikes is then false.
* pandas groupby sorts the group keys in ascending order; groupBySorted does
  the same with an insertion sort over the deduplicated keys.  Month keys are
  the zero-padded "YYYY-MM" strings the scripts build, ordered by code points
  as Python orders str.
-/

namespace WaterUseQA

/-- A calendar date (datetime.date in the scripts). -/
structure Date where
  year : ℕ
  month : ℕ
  day : ℕ
deriving DecidableEq

/-- Lexicographic order on dates, as datetime.date compares in Python. -/
def dateLe (a b : Date) : Bool :=
  decide (a.year < b.year) ||
    (decide (a.year = b.year) &&
      (decide (a.month < b.month) ||
        (decide (a.month = b.month) && decide (a.day ≤ b.day))))

/-- Code-point lexicographic order on character lists (Python str order). -/
def charListLe : List Char → List Char → Bool
  | [], _ => true
  | _ :: _, [] => false
  | a :: as, b :: bs => if a = b then charListLe as bs else decide (a < b)

/-- Code-point lexicographic order on strings (Python str order). -/
def strLe (a b : String) : Bool := charListLe a.data b.data

/-- Zero padding of a month number: the format string {0:0>2} of the scripts. -/
def pad2 (n : ℕ) : String := if n < 10 then "0" ++ toString n else toString n

/-- The month key "YYYY-MM" built by the scripts from Year and MonthVal2. -/
def monthKey (d : Date) : String := toString d.year ++ "-" ++ pad2 d.month

/-- A raw Hilltop reading: Measurement label, DateTime (its date part is all
the pipeline uses), Value. -/
structure Reading where
  measurement : String
  date : Date
  value : ℚ
deriving DecidableEq

/-- A row of the vol_data dataframe produced by convert_water_use_data:
the reading plus the derived Vol column (none models NaN). -/
structure VolRecord where
  measurement : String
  date : Date
  value : ℚ
  vol : Option ℚ
deriving DecidableEq

/-- pandas Series.diff(): first entry NaN, entry i is value i minus value i-1. -/
def pandasDiff (values : List ℚ) : List (Option ℚ) :=
  match values with
  | [] => []
  | _ :: tail => none :: List.zipWith (fun prev cur => some (cur - prev)) values tail

/-- convert_water_use_data: rows labelled "Water Meter" get Vol from
Value.diff() (the diff is taken over the whole Value column, as in the
source), all other rows keep Vol = Value. -/
def convert_water_use_data (df : List Reading) : List VolRecord :=
  (df.zip (pandasDiff (df.map (·.value)))).map fun rd =>
    { measurement := rd.1.measurement, date := rd.1.date, value := rd.1.value,
      vol := if rd.1.measurement = "Water Meter" then rd.2 else some rd.1.value }

/-- The mask df.Vol < 0 (false on NaN). -/
def volLt0 (r : VolRecord) : Bool :=
  match r.vol with
  | some v => decide (v < 0)
  | none => false

/-- The mask df.Vol >= 0 (false on NaN). -/
def volGe0 (r : VolRecord) : Bool :=
  match r.vol with
  | some v => decide (0 ≤ v)
  | none => false

/-- The mask df.Vol > 0 (false on NaN). -/
def volPos (r : VolRecord) : Bool :=
  match r.vol with
  | some v => decide (0 < v)
  | none => false

/-- Insert a key into a sorted list of keys. -/
def insertSorted {κ : Type} (le : κ → κ → Bool) (x : κ) : List κ → List κ
  | [] => [x]
  | y :: ys => if le x y then x :: y :: ys else y :: insertSorted le x ys

/-- Insertion sort of the group keys (pandas groupby sorts keys ascending). -/
def sortKeys {κ : Type} (le : κ → κ → Bool) (l : List κ) : List κ :=
  l.foldr (insertSorted le) []

/-- pandas groupby with sorted keys: the distinct key values in ascending
order, each paired with the rows of the frame having that key, in frame
order. -/
def groupBySorted {α κ : Type} [DecidableEq κ] (key : α → κ) (le : κ → κ → Bool)
    (df : List α) : List (κ × List α) :=
  (sortKeys le (df.map key).dedup).map fun k => (k, df.filter fun r => key r = k)

/-- A row of the neg_monthly summary: month key, Negative Value Count,
Negative Value Sum. -/
structure NegMonthlyRow where
  month : String
  negCount : ℕ
  negSum : ℚ
deriving DecidableEq

/-- summarise_negative_values: filter the rows with Vol < 0, group them by the
month key of their DateTime, and report count and sum of Vol per month.
The agg count counts the non-NaN Vol cells of the group, hence the
filterMap. -/
def summarise_negative_values (df : List VolRecord) : List NegMonthlyRow :=
  let neg_data := df.filter volLt0
  (groupBySorted (fun r => monthKey r.date) strLe neg_data).map fun g =>
    { month := g.1,
      negCount := (g.2.filterMap (·.vol)).length,
      negSum := (g.2.filterMap (·.vol)).sum }

/-- remove_negative_values: keep the rows with Vol >= 0 (a NaN Vol fails the
comparison and is removed as well, as in pandas). -/
def remove_negative_values (df : List VolRecord) : List VolRecord :=
  df.filter volGe0

/-- The frame df[df.Vol > 0] used by calculate_spike_parameters and
generate_extraction_stats. -/
def filterPosVol (df : List VolRecord) : List VolRecord :=
  df.filter volPos

/-- The non-NaN Vol values of a frame. -/
def volsOf (df : List VolRecord) : List ℚ := df.filterMap (·.vol)

/-- pandas Series.mean over the listed values (0 on the empty list, where
pandas gives NaN; the callers below only use the mean under guards that are
false in that case, see the development comments). -/
def listMean (l : List ℚ) : ℚ := l.sum / l.length

/-- The square of pandas Series.std (ddof = 1): the sample variance.  On lists
with fewer than two elements the rational division by zero gives 0, where
pandas gives NaN; every guard reading it is then false in both systems. -/
def listVar (l : List ℚ) : ℚ :=
  ((l.map fun x => (x - listMean l) ^ 2).sum) / ((l.length : ℚ) - 1)

/-- calculate_spike_parameters: mean and standard deviation of the Vol values
of the subset with Vol > 0.  The second component is the SQUARE of the
standard deviation returned by the source (see the header comment). -/
def calculate_spike_parameters (df : List VolRecord) : ℚ × ℚ :=
  let nonzero_vol := filterPosVol df
  (listMean (volsOf nonzero_vol), listVar (volsOf nonzero_vol))

/-- The mask df.Vol > mean + sd * k of detect_spikes, phrased with the square
sdSq of sd: for 0 <= k and 0 <= sdSq this equals mean + k * sqrt sdSq < v
exactly (theorem exceedsThreshold_iff_sqrt); a NaN Vol is never above the
threshold. -/
def exceedsThreshold (k : ℚ) (mean sdSq : ℚ) (vol : Option ℚ) : Bool :=
  match vol with
  | some v => decide (mean < v) && decide (k ^ 2 * sdSq < (v - mean) ^ 2)
  | none => false

/-- A row of the vol_stats dataframe produced by detect_spikes: the record
plus the three spike flag columns (0 or 1 integers, as in the source). -/
structure SpikeRecord where
  measurement : String
  date : Date
  value : ℚ
  vol : Option ℚ
  sd5 : ℕ
  sd10 : ℕ
  sd20 : ℕ
deriving DecidableEq

/-- detect_spikes: all three flag columns start at 0; when sd >= 1 (phrased as
1 <= sdSq) and the length of the WHOLE input frame is above 100, a row gets
flag k when its Vol is above mean + sd * k. -/
def detect_spikes (df : List VolRecord) (mean sdSq : ℚ) : List SpikeRecord :=
  let guardOk : Bool := decide (1 ≤ sdSq) && decide (100 < df.length)
  df.map fun r =>
    { measurement := r.measurement, date := r.date, value := r.value, vol := r.vol,
      sd5 := if guardOk && exceedsThreshold 5 mean sdSq r.vol then 1 else 0,
      sd10 := if guardOk && exceedsThreshold 10 mean sdSq r.vol then 1 else 0,
      sd20 := if guardOk && exceedsThreshold 20 mean sdSq r.vol then 1 else 0 }

/-- The spike stage as composed in main(): parameters from the frame that is
then flagged (vol_data2 in both scripts). -/
def spikePipeline (df : List VolRecord) : List SpikeRecord :=
  detect_spikes df (calculate_spike_parameters df).1 (calculate_spike_parameters df).2

/-- pandas max over a list of strings (group aggregation Measurement : max;
groups are never empty, so the empty-list default is irrelevant). -/
def strMax (l : List String) : String :=
  l.foldl (fun a b => if strLe a b then b else a) ""

/-- A row of daily_stats: Date, Measurement max, count of non-NaN Vol cells,
sums of the three flag columns, and the derived month key. -/
structure DailyStatRow where
  date : Date
  measurement : String
  volCount : ℕ
  sd5 : ℕ
  sd10 : ℕ
  sd20 : ℕ
  month : String
deriving DecidableEq

/-- generate_daily_stats: group the flagged frame by Date and aggregate;
then derive the month key from the date. -/
def generate_daily_stats (df : List SpikeRecord) : List DailyStatRow :=
  (groupBySorted (fun r => r.date) dateLe df).map fun g =>
    { date := g.1,
      measurement := strMax (g.2.map (·.measurement)),
      volCount := (g.2.filterMap (·.vol)).length,
      sd5 := (g.2.map (·.sd5)).sum,
      sd10 := (g.2.map (·.sd10)).sum,
      sd20 := (g.2.map (·.sd20)).sum,
      month := monthKey g.1 }

/-- A row of monthly_stats (column names of the WAP-list script): MeasType,
DaysWithData, TotalReports and the three spike sums. -/
structure MonthlyStatRow where
  month : String
  measType : String
  daysWithData : ℕ
  totalReports : ℕ
  sd5 : ℕ
  sd10 : ℕ
  sd20 : ℕ
deriving DecidableEq

/-- generate_monthly_stats: group the daily rows by month key; the Vol column
of daily_stats holds the integer daily counts, never NaN, so its count is the
group size (days with data) and its sum the total reports. -/
def generate_monthly_stats (df : List DailyStatRow) : List MonthlyStatRow :=
  (groupBySorted (·.month) strLe df).map fun g =>
    { month := g.1,
      measType := strMax (g.2.map (·.measurement)),
      daysWithData := g.2.length,
      totalReports := (g.2.map (·.volCount)).sum,
      sd5 := (g.2.map (·.sd5)).sum,
      sd10 := (g.2.map (·.sd10)).sum,
      sd20 := (g.2.map (·.sd20)).sum }

/-- Minimum of a list of rationals (groups are never empty; 0 default). -/
def listMin (l : List ℚ) : ℚ :=
  match l with
  | [] => 0
  | v :: t => t.foldl min v

/-- Maximum of a list of rationals (groups are never empty; 0 default). -/
def listMax (l : List ℚ) : ℚ :=
  match l with
  | [] => 0
  | v :: t => t.foldl max v

/-- Round to the nearest integer with ties to even, as numpy and pandas
Series.round do. -/
def roundHalfEven (x : ℚ) : ℤ :=
  let f := Int.floor x
  let r := x - f
  if r < 1 / 2 then f
  else if 1 / 2 < r then f + 1
  else if f % 2 = 0 then f else f + 1

/-- pandas Series.round(d). -/
def roundTo (d : ℕ) (x : ℚ) : ℚ := (roundHalfEven (x * 10 ^ d) : ℚ) / 10 ^ d

/-- A row of extraction_monthly: month key with rounded min, mean and max of
the positive Vol values of the month. -/
structure ExtractionRow where
  month : String
  minExtraction : ℚ
  meanExtraction : ℚ
  maxExtraction : ℚ
deriving DecidableEq

/-- generate_extraction_stats: keep the rows with Vol > 0 of the input frame
(vol_data2 at the call site, i.e. the pre-aggregation record level), group by
month key, and aggregate min, mean and max of Vol with the source rounding.
The len >= 1 branch of the source only avoids building columns on an empty
frame; here an empty frame simply has no groups. -/
def generate_extraction_stats (df : List VolRecord) : List ExtractionRow :=
  let extraction_data := filterPosVol df
  (groupBySorted (fun r => monthKey r.date) strLe extraction_data).map fun g =>
    { month := g.1,
      minExtraction := roundTo 3 (listMin (volsOf g.2)),
      meanExtraction := roundTo 1 (listMean (volsOf g.2)),
      maxExtraction := roundTo 1 (listMax (volsOf g.2)) }

/-- A row of monthly_stats2 after combine_monthly_stats: the monthly
statistics with the three extraction columns, which are NaN (none) for months
that the left merge does not find in the extraction table. -/
structure CombinedMonthlyRow where
  month : String
  measType : String
  daysWithData : ℕ
  totalReports : ℕ
  minExtraction : Option ℚ
  meanExtraction : Option ℚ
  maxExtraction : Option ℚ
  sd5 : ℕ
  sd10 : ℕ
  sd20 : ℕ
deriving DecidableEq

/-- combine_monthly_stats: pd.merge(monthly, extraction, on = Month,
how = left).  The extraction table is a groupby result, so its month keys are
unique and the left join is a lookup: a month found in the extraction table
takes its three extraction values, a month not found gets NaN in all three. -/
def combine_monthly_stats (m : List MonthlyStatRow) (e : List ExtractionRow) :
    List CombinedMonthlyRow :=
  m.map fun row =>
    match e.find? fun ex => ex.month = row.month with
    | some ex =>
      { month := row.month, measType := row.measType,
        daysWithData := row.daysWithData, totalReports := row.totalReports,
        minExtraction := some ex.minExtraction,
        meanExtraction := some ex.meanExtraction,
        maxExtraction := some ex.maxExtraction,
        sd5 := row.sd5, sd10 := row.sd10, sd20 := row.sd20 }
    | none =>
      { month := row.month, measType := row.measType,
        daysWithData := row.daysWithData, totalReports := row.totalReports,
        minExtraction := none, meanExtraction := none, maxExtraction := none,
        sd5 := row.sd5, sd10 := row.sd10, sd20 := row.sd20 }

/-- Gregorian leap years, as datetime uses. -/
def isLeapYear (y : ℕ) : Bool :=
  (decide (y % 4 = 0) && decide (y % 100 ≠ 0)) || decide (y % 400 = 0)

/-- Days of a calendar month. -/
def daysInMonth (y m : ℕ) : ℕ :=
  if m = 2 then (if isLeapYear y then 29 else 28)
  else if m = 4 ∨ m = 6 ∨ m = 9 ∨ m = 11 then 30
  else 31

/-- The calendar day after a date. -/
def nextDate (d : Date) : Date :=
  if d.day < daysInMonth d.year d.month then ⟨d.year, d.month, d.day + 1⟩
  else if d.month < 12 then ⟨d.year, d.month + 1, 1⟩
  else ⟨d.year + 1, 1, 1⟩

/-- Fuelled walk over consecutive days, stopping past the end date. -/
def dateRangeAux : ℕ → Date → Date → List Date
  | 0, _, _ => []
  | fuel + 1, cur, stop =>
    if dateLe cur stop then cur :: dateRangeAux fuel (nextDate cur) stop else []

/-- pd.date_range(a, b): every calendar date from a to b inclusive.  The fuel
bounds the number of days: when a is at most b there are at most
(b.year + 2 - a.year) * 366 of them. -/
def dateRange (a b : Date) : List Date :=
  dateRangeAux ((b.year + 2 - a.year) * 366) a b

/-- pandas Series.min over the Date column (dummy value on the empty frame,
on which the source raises instead; the theorems below assume a nonempty
frame). -/
def minimumDate (l : List Date) : Date :=
  match l with
  | [] => ⟨0, 0, 0⟩
  | d :: t => t.foldl (fun a b => if dateLe b a then b else a) d

/-- pandas Series.max over the Date column (dummy value on the empty frame). -/
def maximumDate (l : List Date) : Date :=
  match l with
  | [] => ⟨0, 0, 0⟩
  | d :: t => t.foldl (fun a b => if dateLe a b then b else a) d

/-- The start date of the first water year, from process_plot_data: July 1 of
the previous calendar year when the first month is at most June, else July 1
of the same year. -/
def waterYearStart (d : Date) : Date :=
  if d.month ≤ 6 then ⟨d.year - 1, 7, 1⟩ else ⟨d.year, 7, 1⟩

/-- The daily aggregate of process_plot_data: groupby Date of Vol with count
(non-NaN cells) and sum (NaN skipped). -/
def daily_counts (df : List VolRecord) : List (Date × ℕ × ℚ) :=
  (groupBySorted (fun r => r.date) dateLe df).map fun g =>
    (g.1, (volsOf g.2).length, (volsOf g.2).sum)

/-- A row of the plotting frame daily_counts2: Date, Readings (after the
fillna 0), Volume, month key, Day, Rate and MA30 (none models NaN). -/
structure PlotRow where
  date : Date
  readings : ℕ
  volume : Option ℚ
  month : String
  day : ℕ
  rate : Option ℚ
  ma30 : Option ℚ
deriving DecidableEq

/-- One reindexed row of process_plot_data: a date found in the daily
aggregate keeps its count and sum, with Rate = Volume * (1000/86400); a date
that is absent gets Readings 0 (the fillna) and NaN Volume and Rate.  MA30 is
attached afterwards by addRollingMean. -/
def reindexRow (agg : List (Date × ℕ × ℚ)) (d : Date) : PlotRow :=
  match agg.find? fun g => g.1 = d with
  | some g =>
    { date := d, readings := g.2.1, volume := some g.2.2, month := monthKey d,
      day := d.day, rate := some (g.2.2 * (1000 / 86400)), ma30 := none }
  | none =>
    { date := d, readings := 0, volume := none, month := monthKey d,
      day := d.day, rate := none, ma30 := none }

/-- The reindexed plotting frame: one row per calendar date from the water
year start of the first observation to the last observation. -/
def reindexedRows (df : List VolRecord) : List PlotRow :=
  (dateRange (waterYearStart (minimumDate (df.map (·.date))))
      (maximumDate (df.map (·.date)))).map
    (reindexRow (daily_counts df))

/-- Series.rolling(window 30, min_periods 21).mean() at position i of the
Volume column: the mean of the non-NaN values among the at most 30 entries
ending at i, when at least 21 of them are present, else NaN. -/
def ma30At (vols : List (Option ℚ)) (i : ℕ) : Option ℚ :=
  let window := (vols.take (i + 1)).drop (i + 1 - 30)
  let obs := window.filterMap id
  if 21 ≤ obs.length then some (listMean obs) else none

/-- Attach the MA30 column to the reindexed rows. -/
def addRollingMean (vols : List (Option ℚ)) (rows : List PlotRow) : List PlotRow :=
  ((List.range rows.length).zip rows).map fun ir =>
    { ir.2 with ma30 := ma30At vols ir.1 }

/-- process_plot_data: daily aggregation, reindexing over the water-year
range, Rate and MA30 derivation, Readings fillna 0.  The source raises on an
empty frame (min of an empty series); here the empty frame maps to the empty
output and the theorems only speak about nonempty frames. -/
def process_plot_data (df : List VolRecord) : List PlotRow :=
  if df.isEmpty then []
  else addRollingMean ((reindexedRows df).map (·.volume)) (reindexedRows df)

/-- The CASE expression of the TYPE_CORRECTED_COMBINED_METERS common table
expression in water_use_data__snowflake_extraction.py, for one observation
given its predecessor in the window: Water Meter rows are differenced, Flow
rows are scaled by 1000 over the seconds elapsed since the previous
observation, Average Flow rows are divided by the hours elapsed, and every
other attribute keeps its observed value.  The elapsed seconds and hours are
passed in as the two TIMEDIFF results. -/
def snowflakeMeasuredValue (attributeName : String) (value prevValue : ℚ)
    (secondsDiff hoursDiff : ℚ) : ℚ :=
  if attributeName = "Water Meter" then value - prevValue
  else if attributeName = "Flow" then value * 1000 / secondsDiff
  else if attributeName = "Average Flow" then value / hoursDiff
  else value

/-- The MeterCumulative example sequence 10, 15, 12, 20 of the specification,
as Water Meter readings on consecutive days. -/
def c1df : List Reading :=
  [⟨"Water Meter", ⟨2021, 3, 1⟩, 10⟩,
   ⟨"Water Meter", ⟨2021, 3, 2⟩, 15⟩,
   ⟨"Water Meter", ⟨2021, 3, 3⟩, 12⟩,
   ⟨"Water Meter", ⟨2021, 3, 4⟩, 20⟩]

/-- 65 zero-volume records, 35 of volume 1 and one of volume 7: the whole
frame has 101 rows, the positive-volume candidate set has 36 elements with
mean 7/6 and standard deviation exactly 1. -/
def c2df : List VolRecord :=
  List.replicate 65 ⟨"Volume", ⟨2021, 3, 1⟩, 0, some 0⟩ ++
    List.replicate 35 ⟨"Volume", ⟨2021, 3, 2⟩, 1, some 1⟩ ++
    [⟨"Volume", ⟨2021, 3, 3⟩, 7, some 7⟩]

/-- The negative-value example of the specification: volumes -2, -2, 5, -1
dated within one month. -/
def c3df : List VolRecord :=
  [⟨"Volume", ⟨2021, 3, 1⟩, -2, some (-2)⟩,
   ⟨"Volume", ⟨2021, 3, 2⟩, -2, some (-2)⟩,
   ⟨"Volume", ⟨2021, 3, 3⟩, 5, some 5⟩,
   ⟨"Volume", ⟨2021, 3, 4⟩, -1, some (-1)⟩]

/-- A small frame for witnesses: three records, too short for the spike
guard. -/
def smallDf : List VolRecord :=
  [⟨"Volume", ⟨2020, 7, 1⟩, 1, some 1⟩,
   ⟨"Volume", ⟨2020, 7, 1⟩, 100, some 100⟩,
   ⟨"Volume", ⟨2020, 7, 2⟩, 0, some 0⟩]

/-- A one-record frame whose single date is July 1, so that the water-year
reindexing produces exactly one row. -/
def julyDf : List VolRecord :=
  [⟨"Volume", ⟨2020, 7, 1⟩, 5, some 5⟩]

/-- A monthly-statistics table with two months, used to exercise the left
merge of combine_monthly_stats. -/
def c7monthly : List MonthlyStatRow :=
  [⟨"2021-03", "Volume", 1, 1, 0, 0, 0⟩,
   ⟨"2021-04", "Volume", 1, 1, 0, 0, 0⟩]

/-- A frame whose only positive volume lies in March 2021, so April 2021 has
no positive-volume record. -/
def c7df : List VolRecord :=
  [⟨"Volume", ⟨2021, 3, 5⟩, 4, some 4⟩,
   ⟨"Volume", ⟨2021, 4, 2⟩, 0, some 0⟩]

/-- A single non-cumulative reading, for identity-normalization witnesses. -/
def c9df : List Reading :=
  [⟨"Compliance Volume", ⟨2021, 1, 5⟩, 42⟩]

/-- A one-record frame whose date is 2020-03-15 (month at most June). -/
def marchDf : List VolRecord :=
  [⟨"Volume", ⟨2020, 3, 15⟩, 2, some 2⟩]

/-- A one-record frame whose date is 2020-09-01 (month above June). -/
def septDf : List VolRecord :=
  [⟨"Volume", ⟨2020, 9, 1⟩, 2, some 2⟩]

/-! Section: Order lemmas for dates and strings -/

theorem dateLe_refl (a : Date) : dateLe a a = true := by
  simp [dateLe]

theorem dateLe_trans {a b c : Date} (h₁ : dateLe a b = true) (h₂ : dateLe b c = true) :
    dateLe a c = true := by
  simp only [dateLe, Bool.or_eq_true, Bool.and_eq_true, decide_eq_true_eq] at *
  omega

theorem dateLe_total (a b : Date) : dateLe a b = true ∨ dateLe b a = true := by
  simp only [dateLe, Bool.or_eq_true, Bool.and_eq_true, decide_eq_true_eq]
  omega

theorem dateLe_year {a b : Date} (h : dateLe a b = true) : a.year ≤ b.year := by
  simp only [dateLe, Bool.or_eq_true, Bool.and_eq_true, decide_eq_true_eq] at h
  omega

/-! Section: The insertion sort over group keys -/

theorem insertSorted_perm {κ : Type} (le : κ → κ → Bool) (x : κ) (l : List κ) :
    (insertSorted le x l).Perm (x :: l) := by
  induction l with
  | nil => exact List.Perm.refl _
  | cons y ys ih =>
    by_cases h : le x y = true
    · simp [insertSorted, h]
    · simp only [insertSorted, h, if_false]
      exact (ih.cons y).trans (List.Perm.swap x y ys)

theorem sortKeys_perm {κ : Type} (le : κ → κ → Bool) (l : List κ) :
    (sortKeys le l).Perm l := by
  induction l with
  | nil => exact List.Perm.refl _
  | cons a t ih => exact (insertSorted_perm le a (sortKeys le t)).trans (ih.cons a)

theorem mem_sortKeys {κ : Type} {le : κ → κ → Bool} {l : List κ} {x : κ} :
    x ∈ sortKeys le l ↔ x ∈ l :=
  (sortKeys_perm le l).mem_iff

theorem sortKeys_nodup {κ : Type} {le : κ → κ → Bool} {l : List κ} (h : l.Nodup) :
    (sortKeys le l).Nodup :=
  ((sortKeys_perm le l).nodup_iff).mpr h

/-! Section: Group-by lemmas -/

theorem groupBySorted_keys {α κ : Type} [DecidableEq κ] (key : α → κ) (le : κ → κ → Bool)
    (df : List α) :
    (groupBySorted key le df).map Prod.fst = sortKeys le (df.map key).dedup := by
  simp only [groupBySorted, List.map_map]
  have hcomp : (Prod.fst ∘ fun k => (k, df.filter fun r => key r = k)) = fun k : κ => k := rfl
  rw [hcomp, List.map_id']

theorem groupBySorted_keys_nodup {α κ : Type} [DecidableEq κ] (key : α → κ)
    (le : κ → κ → Bool) (df : List α) :
    ((groupBySorted key le df).map Prod.fst).Nodup := by
  rw [groupBySorted_keys]
  exact sortKeys_nodup (List.nodup_dedup _)

theorem mem_groupBySorted {α κ : Type} [DecidableEq κ] {key : α → κ} {le : κ → κ → Bool}
    {df : List α} {k : κ} {g : List α} (h : (k, g) ∈ groupBySorted key le df) :
    k ∈ df.map key ∧ g = df.filter fun r => key r = k := by
  simp only [groupBySorted, List.mem_map] at h
  obtain ⟨k₀, hk₀, hpair⟩ := h
  simp only [Prod.mk.injEq] at hpair
  obtain ⟨rfl, rfl⟩ := hpair
  exact ⟨List.mem_dedup.mp (mem_sortKeys.mp hk₀), rfl⟩

theorem eq_of_nodup_keys {α κ : Type} (key : α → κ) {l : List α} (h : (l.map key).Nodup)
    {x y : α} (hx : x ∈ l) (hy : y ∈ l) (hxy : key x = key y) : x = y := by
  induction l with
  | nil => cases hx
  | cons a t ih =>
    simp only [List.map_cons, List.nodup_cons] at h
    rcases List.mem_cons.mp hx with rfl | hx₀ <;> rcases List.mem_cons.mp hy with rfl | hy₀
    · rfl
    · exact absurd (hxy ▸ List.mem_map_of_mem key hy₀) h.1
    · exact absurd (hxy ▸ List.mem_map_of_mem key hx₀) (by simpa [hxy] using h.1)
    · exact ih h.2 hx₀ hy₀

/-! Section: Mean and variance lemmas -/

theorem listMean_pos {l : List ℚ} (hpos : ∀ x ∈ l, 0 < x) (hne : l ≠ []) :
    0 < listMean l := by
  have hsum : 0 < l.sum := List.sum_pos l hpos hne
  have hlen : 0 < (l.length : ℚ) := by
    have : 0 < l.length := List.length_pos.mpr hne
    exact_mod_cast this
  exact div_pos hsum hlen

theorem listVar_nonneg (l : List ℚ) : 0 ≤ listVar l := by
  cases l with
  | nil => simp [listVar]
  | cons a t =>
    apply div_nonneg
    · exact List.sum_nonneg fun x hx => by
        obtain ⟨y, _, rfl⟩ := List.mem_map.mp hx
        positivity
    · have : (1 : ℚ) ≤ ((a :: t).length : ℚ) := by
        have : 1 ≤ (a :: t).length := by simp
        exact_mod_cast this
      linarith

theorem listVar_nil : listVar [] = 0 := by
  simp [listVar]

/-! Section: Bridge lemmas: the rational comparisons of the embedding agree with
the Real.sqrt comparisons written in the source -/

theorem exceedsThreshold_iff_sqrt (k mean sdSq v : ℚ) (hk : 0 ≤ k) (hs : 0 ≤ sdSq) :
    exceedsThreshold k mean sdSq (some v) = true ↔
      (mean : ℝ) + (k : ℝ) * Real.sqrt (sdSq : ℝ) < (v : ℝ) := by
  have hsR : (0 : ℝ) ≤ (sdSq : ℝ) := by exact_mod_cast hs
  have hkR : (0 : ℝ) ≤ (k : ℝ) := by exact_mod_cast hk
  have hsq : Real.sqrt (sdSq : ℝ) ^ 2 = (sdSq : ℝ) := Real.sq_sqrt hsR
  have hks : 0 ≤ (k : ℝ) * Real.sqrt (sdSq : ℝ) :=
    mul_nonneg hkR (Real.sqrt_nonneg _)
  simp only [exceedsThreshold, Bool.and_eq_true, decide_eq_true_eq]
  constructor
  · rintro ⟨h₁, h₂⟩
    have h₁R : (mean : ℝ) < (v : ℝ) := by exact_mod_cast h₁
    have h₂R : (k : ℝ) ^ 2 * (sdSq : ℝ) < ((v : ℝ) - (mean : ℝ)) ^ 2 := by
      exact_mod_cast h₂
    have hlt : (k : ℝ) * Real.sqrt (sdSq : ℝ) < (v : ℝ) - (mean : ℝ) := by
      have hsqle : ((k : ℝ) * Real.sqrt (sdSq : ℝ)) ^ 2 < ((v : ℝ) - (mean : ℝ)) ^ 2 := by
        rw [mul_pow, hsq]
        exact h₂R
      exact lt_of_pow_lt_pow_left₀ 2 (by linarith) hsqle
    linarith
  · intro h
    have h₁R : (mean : ℝ) < (v : ℝ) := by nlinarith
    have hlt : (k : ℝ) * Real.sqrt (sdSq : ℝ) < (v : ℝ) - (mean : ℝ) := by linarith
    have hsqlt : ((k : ℝ) * Real.sqrt (sdSq : ℝ)) ^ 2 < ((v : ℝ) - (mean : ℝ)) ^ 2 := by
      nlinarith [hlt, hks]
    rw [mul_pow, hsq] at hsqlt
    refine ⟨by exact_mod_cast h₁R, ?_⟩
    exact_mod_cast hsqlt

theorem one_le_iff_one_le_sqrt (x : ℚ) (hx : 0 ≤ x) :
    (1 ≤ x) ↔ (1 : ℝ) ≤ Real.sqrt (x : ℝ) := by
  have hxR : (0 : ℝ) ≤ (x : ℝ) := by exact_mod_cast hx
  rw [Real.le_sqrt' one_pos]
  norm_num
  exact ⟨fun h => by exact_mod_cast h, fun h => by exact_mod_cast h⟩

/-! Section: Shape lemmas for the cleaning stages -/

theorem mem_remove_negative_values {df : List VolRecord} {r : VolRecord}
    (h : r ∈ remove_negative_values df) : r ∈ df ∧ volGe0 r = true := by
  simpa [remove_negative_values, List.mem_filter] using h

theorem vol_ne_none_of_mem_remove_negative_values {df : List VolRecord} {r : VolRecord}
    (h : r ∈ remove_negative_values df) : r.vol ≠ none := by
  obtain ⟨-, hge⟩ := mem_remove_negative_values h
  intro hnone
  simp [volGe0, hnone] at hge

theorem volLt0_eq_false_of_mem_remove_negative_values {df : List VolRecord} {r : VolRecord}
    (h : r ∈ remove_negative_values df) : volLt0 r = false := by
  obtain ⟨-, hge⟩ := mem_remove_negative_values h
  cases hv : r.vol with
  | none => simp [volLt0, hv]
  | some v =>
    simp only [volGe0, hv, decide_eq_true_eq] at hge
    simp only [volLt0, hv, decide_eq_false_iff_not, not_lt]
    exact hge

theorem convert_tail_getElem (a b : Reading) (t : List Reading) (j : ℕ) :
    (convert_water_use_data (a :: b :: t))[j + 2]? =
      (convert_water_use_data (b :: t))[j + 1]? := by
  simp [convert_water_use_data, pandasDiff, List.zip_cons_cons, List.zipWith_cons_cons]

theorem convert_getElem_succ : ∀ (df : List Reading) (i : ℕ) (ri rj : Reading),
    df[i]? = some ri → df[i + 1]? = some rj →
    (convert_water_use_data df)[i + 1]? =
      some { measurement := rj.measurement, date := rj.date, value := rj.value,
             vol := if rj.measurement = "Water Meter"
                    then some (rj.value - ri.value) else some rj.value }
  | [], _, _, _, hi, _ => by simp at hi
  | [a], i, ri, rj, hi, hj => by simp at hj
  | a :: b :: t, 0, ri, rj, hi, hj => by
    obtain rfl : a = ri := by simpa using hi
    obtain rfl : b = rj := by simpa using hj
    simp [convert_water_use_data, pandasDiff, List.zip_cons_cons, List.zipWith_cons_cons]
  | a :: b :: t, i + 1, ri, rj, hi, hj => by
    rw [convert_tail_getElem a b t i]
    exact convert_getElem_succ (b :: t) i ri rj (by simpa using hi) (by simpa using hj)

theorem convert_getElem_zero (df : List Reading) (r0 : Reading) (h : df[0]? = some r0) :
    (convert_water_use_data df)[0]? =
      some { measurement := r0.measurement, date := r0.date, value := r0.value,
             vol := if r0.measurement = "Water Meter" then none else some r0.value } := by
  cases df with
  | nil => simp at h
  | cons a t =>
    obtain rfl : a = r0 := by simpa using h
    simp [convert_water_use_data, pandasDiff, List.zip_cons_cons]

theorem monthKey_2021_03 (d : ℕ) : monthKey ⟨2021, 3, d⟩ = "2021-03" := by
  show toString 2021 ++ "-" ++ pad2 3 = "2021-03"
  decide

theorem monthKey_2021_04 (d : ℕ) : monthKey ⟨2021, 4, d⟩ = "2021-04" := by
  show toString 2021 ++ "-" ++ pad2 4 = "2021-04"
  decide

theorem monthKey_2020_07 (d : ℕ) : monthKey ⟨2020, 7, d⟩ = "2020-07" := by
  show toString 2020 ++ "-" ++ pad2 7 = "2020-07"
  decide

/-! Section: Claim theorems -/

/-- C1, counterexample.  On the MeterCumulative sequence 10, 15, 12, 20 the
normalized volumes are none, 5, -3, 8 and a record with missing volume exists
after normalization, yet the downstream negative filter removes every missing
volume record, and the negative summary only accounts for the -3: the
unresolved first record IS silently dropped from the downstream outputs. -/
theorem c1_counterexample :
    ((convert_water_use_data c1df).map (·.vol) = [none, some 5, some (-3), some 8]) ∧
    ((remove_negative_values (convert_water_use_data c1df)).map (·.vol) = [some 5, some 8]) ∧
    summarise_negative_values (convert_water_use_data c1df) = [⟨"2021-03", 1, -3⟩] := by
  refine ⟨?_, ?_, ?_⟩ <;>
    norm_num [c1df, convert_water_use_data, pandasDiff, remove_negative_values,
      summarise_negative_values, volGe0, volLt0, volsOf, groupBySorted, sortKeys, insertSorted,
      monthKey_2021_03, List.filter, List.zipWith, List.zip, List.filterMap_cons]

/-- C1, amended.  Unit normalization of Water Meter (MeterCumulative) rows
derives volume i as raw value i minus raw value i-1 for i above 0, and the
first record of the frame gets a missing volume (never 0); on the sequence
10, 15, 12, 20 the derived volumes after the unresolved record are 5, -3, 8.
The missing volume is, however, not propagated downstream: the negative
filter of the pipeline removes every record whose volume is missing. -/
theorem c1_meter_cumulative_normalization :
    (∀ (df : List Reading) (i : ℕ) (ri rj : Reading),
        df[i]? = some ri → df[i + 1]? = some rj → rj.measurement = "Water Meter" →
        (convert_water_use_data df)[i + 1]? =
          some ⟨rj.measurement, rj.date, rj.value, some (rj.value - ri.value)⟩) ∧
    (∀ (df : List Reading) (r0 : Reading),
        df[0]? = some r0 → r0.measurement = "Water Meter" →
        (convert_water_use_data df)[0]? = some ⟨r0.measurement, r0.date, r0.value, none⟩) ∧
    (∀ (df : List VolRecord) (r : VolRecord), r ∈ remove_negative_values df → r.vol ≠ none) ∧
    (convert_water_use_data c1df).map (·.vol) = [none, some 5, some (-3), some 8] := by
  refine ⟨?_, ?_, ?_, by
    norm_num [c1df, convert_water_use_data, pandasDiff, List.zipWith, List.zip]⟩
  · intro df i ri rj hi hj hm
    rw [convert_getElem_succ df i ri rj hi hj, hm]
    simp
  · intro df r0 h0 hm
    rw [convert_getElem_zero df r0 h0, hm]
    simp
  · intro df r hr
    exact vol_ne_none_of_mem_remove_negative_values hr

/-- C1 witness: the amended theorem applied to the example frame. -/
theorem c1_witness :
    (convert_water_use_data c1df)[1]? =
      some ⟨"Water Meter", ⟨2021, 3, 2⟩, 15, some (15 - 10)⟩ ∧
    (convert_water_use_data c1df)[0]? = some ⟨"Water Meter", ⟨2021, 3, 1⟩, 10, none⟩ :=
  ⟨c1_meter_cumulative_normalization.1 c1df 0 ⟨"Water Meter", ⟨2021, 3, 1⟩, 10⟩
      ⟨"Water Meter", ⟨2021, 3, 2⟩, 15⟩ (by decide) (by decide) rfl,
   c1_meter_cumulative_normalization.2.1 c1df ⟨"Water Meter", ⟨2021, 3, 1⟩, 10⟩
      (by decide) rfl⟩

/-- C3, confirmed.  On volumes -2, -2, 5, -1 within one month the negative
summary has count 3 and sum -5 and the filtered series retains only 5; in
general the filtered series contains no negative-volume record, and a summary
computed after filtering is always empty, so the summary must be computed on
the pre-filter series. -/
theorem c3_negative_value_handling :
    (summarise_negative_values c3df = [⟨"2021-03", 3, -5⟩]) ∧
    ((remove_negative_values c3df).map (·.vol) = [some 5]) ∧
    (∀ (df : List VolRecord) (r : VolRecord),
        r ∈ remove_negative_values df → volLt0 r = false) ∧
    (∀ df : List VolRecord, summarise_negative_values (remove_negative_values df) = []) := by
  refine ⟨by
      norm_num [c3df, summarise_negative_values, volLt0, volsOf, groupBySorted, sortKeys,
        insertSorted, monthKey_2021_03, List.filter, List.filterMap_cons], by decide, ?_, ?_⟩
  · intro df r hr
    exact volLt0_eq_false_of_mem_remove_negative_values hr
  · intro df
    have hfil : (remove_negative_values df).filter volLt0 = [] := by
      rw [List.filter_eq_nil_iff]
      intro r hr
      simp [volLt0_eq_false_of_mem_remove_negative_values hr]
    simp [summarise_negative_values, hfil, groupBySorted, sortKeys]

/-- C3 witness: the universally quantified parts applied to the example. -/
theorem c3_witness :
    (⟨"Volume", ⟨2021, 3, 3⟩, 5, some 5⟩ : VolRecord) ∈ remove_negative_values c3df ∧
    volLt0 ⟨"Volume", ⟨2021, 3, 3⟩, 5, some 5⟩ = false ∧
    summarise_negative_values (remove_negative_values c3df) = [] :=
  ⟨by decide,
   c3_negative_value_handling.2.2.1 c3df ⟨"Volume", ⟨2021, 3, 3⟩, 5, some 5⟩ (by decide),
   c3_negative_value_handling.2.2.2 c3df⟩

/-- C8, confirmed.  Every stage of the core transform maps the empty reading
sequence to an empty derived output (all the embedded functions are total, so
no exception can arise). -/
theorem c8_empty_input :
    convert_water_use_data [] = [] ∧
    summarise_negative_values [] = [] ∧
    remove_negative_values [] = [] ∧
    spikePipeline [] = [] ∧
    generate_daily_stats [] = [] ∧
    generate_monthly_stats [] = [] ∧
    generate_extraction_stats [] = [] := by
  refine ⟨rfl, ?_, rfl, ?_, ?_, ?_, ?_⟩ <;>
    simp [summarise_negative_values, spikePipeline, detect_spikes, generate_daily_stats,
      generate_monthly_stats, generate_extraction_stats, filterPosVol, groupBySorted, sortKeys]

/-- C9, counterexample.  In the snowflake extraction the CASE expression of
TYPE_CORRECTED_COMBINED_METERS converts a Flow observation of 9 with a
previous observation 450 seconds earlier to 9 * 1000 / 450 = 20, which is not
the raw value: unit normalization there is NOT the identity on every
non-cumulative kind. -/
theorem c9_counterexample :
    ("Flow" : String) ≠ "Water Meter" ∧
    snowflakeMeasuredValue "Flow" 9 0 450 (1 / 8) = 20 ∧ (20 : ℚ) ≠ 9 := by
  refine ⟨?_, ?_, ?_⟩
  · decide
  · norm_num [snowflakeMeasuredValue,
      show ("Flow" : String) ≠ "Water Meter" from by decide]
  · decide

/-- C9, amended.  In the Hilltop analysis scripts unit normalization is the
identity on the value of every non Water Meter reading; in the snowflake
extraction this holds only for the attributes that are neither Water Meter
nor Flow nor Average Flow (Flow and Average Flow rows are rescaled by the
elapsed time there). -/
theorem c9_identity_non_cumulative :
    (∀ (df : List Reading) (r : VolRecord), r ∈ convert_water_use_data df →
        r.measurement ≠ "Water Meter" → r.vol = some r.value) ∧
    (∀ (attributeName : String) (value prevValue secondsDiff hoursDiff : ℚ),
        attributeName ≠ "Water Meter" → attributeName ≠ "Flow" →
        attributeName ≠ "Average Flow" →
        snowflakeMeasuredValue attributeName value prevValue secondsDiff hoursDiff = value) := by
  constructor
  · intro df r hr hm
    simp only [convert_water_use_data, List.mem_map] at hr
    obtain ⟨rd, hrd, rfl⟩ := hr
    simp only at hm ⊢
    rw [if_neg hm]
  · intro attributeName v pv sd hd h1 h2 h3
    simp [snowflakeMeasuredValue, h1, h2, h3]

/-- C9 witness: identity on a concrete Compliance Volume reading in both
embeddings. -/
theorem c9_witness :
    ((⟨"Compliance Volume", ⟨2021, 1, 5⟩, 42, some 42⟩ : VolRecord) ∈
        convert_water_use_data c9df →
      ("Compliance Volume" : String) ≠ "Water Meter" →
      (some 42 : Option ℚ) = some 42) ∧
    snowflakeMeasuredValue "Compliance Volume" 42 3 450 (1 / 8) = 42 :=
  ⟨fun hmem hne =>
    c9_identity_non_cumulative.1 c9df ⟨"Compliance Volume", ⟨2021, 1, 5⟩, 42, some 42⟩ hmem hne,
   c9_identity_non_cumulative.2 "Compliance Volume" 42 3 450 (1 / 8)
     (by decide) (by decide) (by decide)⟩

/-! Section: Spike-detection lemmas -/

theorem mem_detect_spikes {df : List VolRecord} {mean sdSq : ℚ} {r : SpikeRecord}
    (h : r ∈ detect_spikes df mean sdSq) :
    r.sd5 = (if (decide (1 ≤ sdSq) && decide (100 < df.length))
                && exceedsThreshold 5 mean sdSq r.vol then 1 else 0) ∧
    r.sd10 = (if (decide (1 ≤ sdSq) && decide (100 < df.length))
                && exceedsThreshold 10 mean sdSq r.vol then 1 else 0) ∧
    r.sd20 = (if (decide (1 ≤ sdSq) && decide (100 < df.length))
                && exceedsThreshold 20 mean sdSq r.vol then 1 else 0) := by
  simp only [detect_spikes, List.mem_map] at h
  obtain ⟨s, hs, rfl⟩ := h
  exact ⟨rfl, rfl, rfl⟩

theorem volsOf_filterPosVol_pos {df : List VolRecord} {x : ℚ}
    (h : x ∈ volsOf (filterPosVol df)) : 0 < x := by
  simp only [volsOf, List.mem_filterMap] at h
  obtain ⟨r, hr, hvol⟩ := h
  simp only [filterPosVol, List.mem_filter] at hr
  have hp := hr.2
  cases hv : r.vol with
  | none => rw [hv] at hvol; cases hvol
  | some v =>
    rw [hv] at hvol
    obtain rfl : v = x := by injection hvol
    simpa [volPos, hv] using hp

theorem filter_replicate_of_pos {α : Type} (p : α → Bool) (a : α) (h : p a = true) :
    ∀ n : ℕ, (List.replicate n a).filter p = List.replicate n a := by
  intro n
  induction n with
  | zero => rfl
  | succ n ih => simp [List.replicate_succ, h, ih]

theorem filter_replicate_of_neg {α : Type} (p : α → Bool) (a : α) (h : p a = false) :
    ∀ n : ℕ, (List.replicate n a).filter p = [] := by
  intro n
  induction n with
  | zero => rfl
  | succ n ih => simp [List.replicate_succ, h, ih]

theorem filterMap_replicate_of_some {α β : Type} (f : α → Option β) (a : α) (b : β)
    (h : f a = some b) : ∀ n : ℕ, (List.replicate n a).filterMap f = List.replicate n b := by
  intro n
  induction n with
  | zero => rfl
  | succ n ih => simp [List.replicate_succ, h, ih]

/-- C2, counterexample.  On a frame of 101 records whose positive-volume
candidate set has only 36 elements (35 volumes of 1 and one of 7, giving mean
7/6 and standard deviation exactly 1), the guard of the source passes - it
tests the length of the WHOLE frame, not of the candidate set - and the
volume-7 record is emitted with a non-zero 5-sigma flag even though the
candidate count is not above 100. -/
theorem c2_counterexample :
    calculate_spike_parameters c2df = (7 / 6, 1) ∧
    (volsOf (filterPosVol c2df)).length = 36 ∧
    (⟨"Volume", ⟨2021, 3, 3⟩, 7, some 7, 1, 0, 0⟩ : SpikeRecord) ∈ spikePipeline c2df := by
  have hzero : volPos (⟨"Volume", ⟨2021, 3, 1⟩, 0, some 0⟩ : VolRecord) = false := by decide
  have hone : volPos (⟨"Volume", ⟨2021, 3, 2⟩, 1, some 1⟩ : VolRecord) = true := by decide
  have hL : volsOf (filterPosVol c2df) = List.replicate 35 (1 : ℚ) ++ [7] := by
    rw [c2df, filterPosVol, volsOf]
    rw [List.filter_append, List.filter_append,
      filter_replicate_of_neg _ _ hzero 65, filter_replicate_of_pos _ _ hone 35,
      List.nil_append, List.filterMap_append,
      filterMap_replicate_of_some (fun r : VolRecord => r.vol)
        ⟨"Volume", ⟨2021, 3, 2⟩, 1, some 1⟩ (1 : ℚ) rfl 35]
    simp [volPos]
  have hsum : (List.replicate 35 (1 : ℚ) ++ [7]).sum = 42 := by
    rw [List.sum_append, List.sum_replicate]
    norm_num
  have hlen : (List.replicate 35 (1 : ℚ) ++ [7]).length = 36 := by
    simp
  have hmean : listMean (List.replicate 35 (1 : ℚ) ++ [7]) = 7 / 6 := by
    rw [listMean, hsum, hlen]
    norm_num
  have hvar : listVar (List.replicate 35 (1 : ℚ) ++ [7]) = 1 := by
    rw [listVar, hmean, hlen, List.map_append, List.map_replicate, List.sum_append,
      List.sum_replicate]
    norm_num
  have hparams : calculate_spike_parameters c2df = (7 / 6, 1) := by
    rw [calculate_spike_parameters]
    rw [hL, hmean, hvar]
  have hlen101 : c2df.length = 101 := by
    simp [c2df]
  refine ⟨hparams, by rw [hL]; exact hlen, ?_⟩
  have hs7 : (⟨"Volume", ⟨2021, 3, 3⟩, 7, some 7⟩ : VolRecord) ∈ c2df := by
    simp [c2df]
  rw [spikePipeline, hparams]
  simp only [detect_spikes, hlen101, List.mem_map]
  refine ⟨⟨"Volume", ⟨2021, 3, 3⟩, 7, some 7⟩, hs7, ?_⟩
  have hguard : (decide ((1 : ℚ) ≤ 1) && decide (100 < 101)) = true := by
    norm_num
  have hex5 : exceedsThreshold 5 (7 / 6) 1 (some 7) = true := by
    rw [exceedsThreshold]
    norm_num
  have hex10 : exceedsThreshold 10 (7 / 6) 1 (some 7) = false := by
    rw [exceedsThreshold]
    norm_num
  have hex20 : exceedsThreshold 20 (7 / 6) 1 (some 7) = false := by
    rw [exceedsThreshold]
    norm_num
  simp [hguard, hex5, hex10, hex20]

/-- C2, amended.  The spike parameters are the mean and standard deviation of
the positive-volume candidate subset, but the count tested by the guard is
the length of the whole frame passed to detect_spikes, not the candidate
count: whenever the positive-subset standard deviation is below 1 (phrased as
variance below 1) or the whole frame has at most 100 records, every record of
the flagged output has all three flags equal to 0 (and all embedded functions
are total, so no exception arises). -/
theorem c2_spike_guard :
    ∀ df : List VolRecord,
      ¬ (1 ≤ (calculate_spike_parameters df).2 ∧ 100 < df.length) →
      ∀ r ∈ spikePipeline df, r.sd5 = 0 ∧ r.sd10 = 0 ∧ r.sd20 = 0 := by
  intro df hng r hr
  obtain ⟨h5, h10, h20⟩ := mem_detect_spikes (by simpa [spikePipeline] using hr)
  have hguard : (decide (1 ≤ (calculate_spike_parameters df).2) &&
      decide (100 < df.length)) = false := by
    by_cases hA : 1 ≤ (calculate_spike_parameters df).2
    · have hB : ¬ 100 < df.length := fun hB => hng ⟨hA, hB⟩
      simp [hB]
    · simp [hA]
  rw [hguard] at h5 h10 h20
  simp only [Bool.false_and, Bool.false_eq_true, if_false] at h5 h10 h20
  exact ⟨h5, h10, h20⟩

/-- C2 witness: the amended guard theorem applied to a three-record frame. -/
theorem c2_witness :
    (¬ (1 ≤ (calculate_spike_parameters smallDf).2 ∧ 100 < smallDf.length)) ∧
    (⟨"Volume", ⟨2020, 7, 1⟩, 1, some 1, 0, 0, 0⟩ : SpikeRecord) ∈ spikePipeline smallDf ∧
    ((⟨"Volume", ⟨2020, 7, 1⟩, 1, some 1, 0, 0, 0⟩ : SpikeRecord).sd5 = 0 ∧
      (⟨"Volume", ⟨2020, 7, 1⟩, 1, some 1, 0, 0, 0⟩ : SpikeRecord).sd10 = 0 ∧
      (⟨"Volume", ⟨2020, 7, 1⟩, 1, some 1, 0, 0, 0⟩ : SpikeRecord).sd20 = 0) := by
  have hng : ¬ (1 ≤ (calculate_spike_parameters smallDf).2 ∧ 100 < smallDf.length) :=
    fun h => absurd h.2 (by decide)
  have hguard : (decide (1 ≤ (calculate_spike_parameters smallDf).2) &&
      decide (100 < smallDf.length)) = false := by
    have : decide (100 < smallDf.length) = false := by decide
    simp [this]
  have hmem : (⟨"Volume", ⟨2020, 7, 1⟩, 1, some 1, 0, 0, 0⟩ : SpikeRecord) ∈
      spikePipeline smallDf := by
    rw [spikePipeline]
    simp only [detect_spikes, hguard, List.mem_map, Bool.false_and, Bool.false_eq_true,
      if_false]
    exact ⟨⟨"Volume", ⟨2020, 7, 1⟩, 1, some 1⟩, by simp [smallDf], rfl⟩
  exact ⟨hng, hmem, c2_spike_guard smallDf hng _ hmem⟩

/-- C10, confirmed.  A record whose volume is at most 0 (or missing) never
receives a spike flag: when the guard fails nothing is flagged, and when it
passes the candidate subset is nonempty and consists of positive volumes, so
its mean is positive and a flag would require the volume to be above the
positive mean. -/
theorem c10_flags_only_positive :
    ∀ (df : List VolRecord) (r : SpikeRecord), r ∈ spikePipeline df →
      (∀ v : ℚ, r.vol = some v → v ≤ 0) →
      r.sd5 = 0 ∧ r.sd10 = 0 ∧ r.sd20 = 0 := by
  intro df r hr hv
  obtain ⟨h5, h10, h20⟩ := mem_detect_spikes (by simpa [spikePipeline] using hr)
  by_cases hg : (decide (1 ≤ (calculate_spike_parameters df).2) &&
      decide (100 < df.length)) = true
  · have hg' := hg
    rw [Bool.and_eq_true] at hg'
    have hvar : 1 ≤ (calculate_spike_parameters df).2 := of_decide_eq_true hg'.1
    have hne : volsOf (filterPosVol df) ≠ [] := by
      intro hnil
      have hz : (calculate_spike_parameters df).2 = 0 := by
        rw [calculate_spike_parameters]
        rw [hnil, listVar_nil]
      rw [hz] at hvar
      norm_num at hvar
    have hmean : 0 < (calculate_spike_parameters df).1 := by
      rw [calculate_spike_parameters]
      exact listMean_pos (fun x hx => volsOf_filterPosVol_pos hx) hne
    have hex : ∀ k : ℚ, exceedsThreshold k (calculate_spike_parameters df).1
        (calculate_spike_parameters df).2 r.vol = false := by
      intro k
      cases hv' : r.vol with
      | none => rfl
      | some v =>
        have hvle : v ≤ 0 := hv v hv'
        have : ¬ (calculate_spike_parameters df).1 < v := by linarith
        simp [exceedsThreshold, this]
    simp only [hg, hex, Bool.true_and, Bool.and_false, Bool.false_eq_true,
      if_false] at h5 h10 h20
    exact ⟨h5, h10, h20⟩
  · rw [Bool.not_eq_true] at hg
    rw [hg] at h5 h10 h20
    simp only [Bool.false_and, Bool.false_eq_true, if_false] at h5 h10 h20
    exact ⟨h5, h10, h20⟩

/-- C10 witness: the zero-volume record of a three-record frame carries no
flag. -/
theorem c10_witness :
    (⟨"Volume", ⟨2020, 7, 2⟩, 0, some 0, 0, 0, 0⟩ : SpikeRecord) ∈ spikePipeline smallDf ∧
    ((⟨"Volume", ⟨2020, 7, 2⟩, 0, some 0, 0, 0, 0⟩ : SpikeRecord).sd5 = 0 ∧
      (⟨"Volume", ⟨2020, 7, 2⟩, 0, some 0, 0, 0, 0⟩ : SpikeRecord).sd10 = 0 ∧
      (⟨"Volume", ⟨2020, 7, 2⟩, 0, some 0, 0, 0, 0⟩ : SpikeRecord).sd20 = 0) := by
  have hguard : (decide (1 ≤ (calculate_spike_parameters smallDf).2) &&
      decide (100 < smallDf.length)) = false := by
    have : decide (100 < smallDf.length) = false := by decide
    simp [this]
  have hmem : (⟨"Volume", ⟨2020, 7, 2⟩, 0, some 0, 0, 0, 0⟩ : SpikeRecord) ∈
      spikePipeline smallDf := by
    rw [spikePipeline]
    simp only [detect_spikes, hguard, List.mem_map, Bool.false_and, Bool.false_eq_true,
      if_false]
    exact ⟨⟨"Volume", ⟨2020, 7, 2⟩, 0, some 0⟩, by simp [smallDf], rfl⟩
  refine ⟨hmem, c10_flags_only_positive smallDf _ hmem ?_⟩
  intro v hv
  obtain rfl : (0 : ℚ) = v := by injection hv
  exact le_refl 0

/-- C4, confirmed.  The three spike thresholds are evaluated independently
and nest monotonically: on every record of the flagged output, a set 20-sigma
flag forces the 10-sigma and 5-sigma flags, and a set 10-sigma flag forces
the 5-sigma flag. -/
theorem c4_flag_nesting :
    ∀ (df : List VolRecord) (r : SpikeRecord), r ∈ spikePipeline df →
      ((r.sd20 = 1 → r.sd10 = 1 ∧ r.sd5 = 1) ∧ (r.sd10 = 1 → r.sd5 = 1)) := by
  intro df r hr
  obtain ⟨h5, h10, h20⟩ := mem_detect_spikes (by simpa [spikePipeline] using hr)
  have key : ∀ kLo kHi : ℚ, 0 ≤ kLo → kLo ≤ kHi →
      exceedsThreshold kHi (calculate_spike_parameters df).1
        (calculate_spike_parameters df).2 r.vol = true →
      1 ≤ (calculate_spike_parameters df).2 →
      exceedsThreshold kLo (calculate_spike_parameters df).1
        (calculate_spike_parameters df).2 r.vol = true := by
    intro kLo kHi hk0 hkk hex hvar
    cases hv : r.vol with
    | none =>
      rw [hv] at hex
      simp [exceedsThreshold] at hex
    | some v =>
      rw [hv] at hex
      simp only [exceedsThreshold, Bool.and_eq_true, decide_eq_true_eq] at hex ⊢
      obtain ⟨hmv, hsq⟩ := hex
      refine ⟨hmv, lt_of_le_of_lt ?_ hsq⟩
      have hs0 : (0 : ℚ) ≤ (calculate_spike_parameters df).2 := by linarith
      have hsqle : kLo ^ 2 ≤ kHi ^ 2 := by nlinarith
      exact mul_le_mul_of_nonneg_right hsqle hs0
  constructor
  · intro h20'
    rw [h20'] at h20
    have hcond : ((decide (1 ≤ (calculate_spike_parameters df).2) &&
        decide (100 < df.length)) && exceedsThreshold 20 (calculate_spike_parameters df).1
          (calculate_spike_parameters df).2 r.vol) = true := by
      by_contra hc
      rw [Bool.not_eq_true] at hc
      rw [hc] at h20
      simp at h20
    rw [Bool.and_eq_true] at hcond
    obtain ⟨hg, hex20⟩ := hcond
    have hg' := hg
    rw [Bool.and_eq_true] at hg'
    have hvar : 1 ≤ (calculate_spike_parameters df).2 := of_decide_eq_true hg'.1
    have hex10 := key 10 20 (by norm_num) (by norm_num) hex20 hvar
    have hex5 := key 5 20 (by norm_num) (by norm_num) hex20 hvar
    rw [hg, hex10] at h10
    rw [hg, hex5] at h5
    simp only [Bool.true_and, if_true] at h10 h5
    exact ⟨h10, h5⟩
  · intro h10'
    rw [h10'] at h10
    have hcond : ((decide (1 ≤ (calculate_spike_parameters df).2) &&
        decide (100 < df.length)) && exceedsThreshold 10 (calculate_spike_parameters df).1
          (calculate_spike_parameters df).2 r.vol) = true := by
      by_contra hc
      rw [Bool.not_eq_true] at hc
      rw [hc] at h10
      simp at h10
    rw [Bool.and_eq_true] at hcond
    obtain ⟨hg, hex10⟩ := hcond
    have hg' := hg
    rw [Bool.and_eq_true] at hg'
    have hvar : 1 ≤ (calculate_spike_parameters df).2 := of_decide_eq_true hg'.1
    have hex5 := key 5 10 (by norm_num) (by norm_num) hex10 hvar
    rw [hg, hex5] at h5
    simp only [Bool.true_and, if_true] at h5
    exact h5

/-- C4 witness: nesting of the flags on a concrete flagged record of the
counterexample frame of the guard analysis. -/
theorem c4_witness :
    (⟨"Volume", ⟨2020, 7, 1⟩, 100, some 100, 0, 0, 0⟩ : SpikeRecord) ∈
        spikePipeline smallDf ∧
    (((⟨"Volume", ⟨2020, 7, 1⟩, 100, some 100, 0, 0, 0⟩ : SpikeRecord).sd20 = 1 →
        (⟨"Volume", ⟨2020, 7, 1⟩, 100, some 100, 0, 0, 0⟩ : SpikeRecord).sd10 = 1 ∧
        (⟨"Volume", ⟨2020, 7, 1⟩, 100, some 100, 0, 0, 0⟩ : SpikeRecord).sd5 = 1) ∧
      ((⟨"Volume", ⟨2020, 7, 1⟩, 100, some 100, 0, 0, 0⟩ : SpikeRecord).sd10 = 1 →
        (⟨"Volume", ⟨2020, 7, 1⟩, 100, some 100, 0, 0, 0⟩ : SpikeRecord).sd5 = 1)) := by
  have hguard : (decide (1 ≤ (calculate_spike_parameters smallDf).2) &&
      decide (100 < smallDf.length)) = false := by
    have : decide (100 < smallDf.length) = false := by decide
    simp [this]
  have hmem : (⟨"Volume", ⟨2020, 7, 1⟩, 100, some 100, 0, 0, 0⟩ : SpikeRecord) ∈
      spikePipeline smallDf := by
    rw [spikePipeline]
    simp only [detect_spikes, hguard, List.mem_map, Bool.false_and, Bool.false_eq_true,
      if_false]
    exact ⟨⟨"Volume", ⟨2020, 7, 1⟩, 100, some 100⟩, by simp [smallDf], rfl⟩
  exact ⟨hmem, c4_flag_nesting smallDf _ hmem⟩

/-! Section: Plot-range lemmas -/

theorem foldl_min_mem : ∀ (t : List Date) (d : Date),
    t.foldl (fun a b => if dateLe b a then b else a) d ∈ d :: t
  | [], d => by simp
  | b :: bs, d => by
    rw [List.foldl_cons]
    have ih := foldl_min_mem bs (if dateLe b d then b else d)
    rcases List.mem_cons.mp ih with h | h
    · rw [h]
      by_cases hc : dateLe b d = true
      · simp [hc]
      · simp [hc]
    · exact List.mem_cons_of_mem _ (List.mem_cons_of_mem _ h)

theorem minimumDate_mem {l : List Date} (h : l ≠ []) : minimumDate l ∈ l := by
  cases l with
  | nil => exact absurd rfl h
  | cons d t => exact foldl_min_mem t d

theorem foldl_max_le : ∀ (t : List Date) (d : Date),
    dateLe d (t.foldl (fun a b => if dateLe a b then b else a) d) = true ∧
    ∀ x ∈ t, dateLe x (t.foldl (fun a b => if dateLe a b then b else a) d) = true
  | [], d => by simp [dateLe_refl]
  | b :: bs, d => by
    rw [List.foldl_cons]
    obtain ⟨ih1, ih2⟩ := foldl_max_le bs (if dateLe d b then b else d)
    have hdg : dateLe d (if dateLe d b then b else d) = true := by
      by_cases hc : dateLe d b = true
      · simp [hc]
      · simp [hc, dateLe_refl]
    have hbg : dateLe b (if dateLe d b then b else d) = true := by
      by_cases hc : dateLe d b = true
      · simp [hc, dateLe_refl]
      · rcases dateLe_total b d with h | h
        · simpa [hc] using h
        · exact absurd h hc
    refine ⟨dateLe_trans hdg ih1, ?_⟩
    intro x hx
    rcases List.mem_cons.mp hx with rfl | hx
    · exact dateLe_trans hbg ih1
    · exact ih2 x hx

theorem le_maximumDate {l : List Date} {x : Date} (hx : x ∈ l) :
    dateLe x (maximumDate l) = true := by
  cases l with
  | nil => cases hx
  | cons d t =>
    obtain ⟨h1, h2⟩ := foldl_max_le t d
    rcases List.mem_cons.mp hx with rfl | hx
    · exact h1
    · exact h2 x hx

theorem waterYearStart_le (d : Date) (hy : 1 ≤ d.year) (hd : 1 ≤ d.day) :
    dateLe (waterYearStart d) d = true := by
  rw [waterYearStart]
  by_cases hm : d.month ≤ 6
  · rw [if_pos hm]
    simp only [dateLe, Bool.or_eq_true, Bool.and_eq_true, decide_eq_true_eq]
    omega
  · rw [if_neg hm]
    simp [dateLe]
    omega

theorem dateRange_head {a b : Date} (h : dateLe a b = true) :
    (dateRange a b).head? = some a := by
  have hy : a.year ≤ b.year := dateLe_year h
  obtain ⟨k, hk⟩ : ∃ k, (b.year + 2 - a.year) * 366 = k + 1 :=
    ⟨(b.year + 2 - a.year) * 366 - 1, by omega⟩
  rw [dateRange, hk]
  simp [dateRangeAux, h]

theorem reindexRow_date (agg : List (Date × ℕ × ℚ)) (d : Date) :
    (reindexRow agg d).date = d := by
  rw [reindexRow]
  cases agg.find? fun g => g.1 = d <;> rfl

theorem addRollingMean_head_date (vols : List (Option ℚ)) (rows : List PlotRow) :
    (addRollingMean vols rows).head?.map (·.date) = rows.head?.map (·.date) := by
  cases rows with
  | nil => rfl
  | cons s t =>
    rw [addRollingMean, List.length_cons, List.range_succ_eq_map]
    simp [List.zip_cons_cons]

theorem addRollingMean_mem {vols : List (Option ℚ)} {rows : List PlotRow} {r : PlotRow}
    (h : r ∈ addRollingMean vols rows) :
    ∃ s ∈ rows, r.date = s.date ∧ r.readings = s.readings ∧ r.volume = s.volume ∧
      r.rate = s.rate := by
  rw [addRollingMean, List.mem_map] at h
  obtain ⟨ir, hir, rfl⟩ := h
  exact ⟨ir.2, (List.of_mem_zip hir).2, rfl, rfl, rfl, rfl⟩

theorem process_plot_data_head {df : List VolRecord} (hne : df ≠ [])
    (hy : 1 ≤ (minimumDate (df.map (·.date))).year)
    (hd : 1 ≤ (minimumDate (df.map (·.date))).day) :
    (process_plot_data df).head?.map (·.date) =
      some (waterYearStart (minimumDate (df.map (·.date)))) := by
  have hmapne : df.map (·.date) ≠ [] := fun hmap => hne (List.map_eq_nil_iff.mp hmap)
  have hminmax : dateLe (minimumDate (df.map (·.date)))
      (maximumDate (df.map (·.date))) = true :=
    le_maximumDate (minimumDate_mem hmapne)
  have hstart : dateLe (waterYearStart (minimumDate (df.map (·.date))))
      (maximumDate (df.map (·.date))) = true :=
    dateLe_trans (waterYearStart_le _ hy hd) hminmax
  have hempf : ¬ df.isEmpty = true := by
    simpa [List.isEmpty_iff] using hne
  rw [process_plot_data, if_neg hempf, addRollingMean_head_date, reindexedRows,
    List.head?_map, dateRange_head hstart]
  simp [reindexRow_date]

theorem daily_counts_keys_nodup (df : List VolRecord) :
    ((daily_counts df).map Prod.fst).Nodup := by
  rw [daily_counts, List.map_map]
  have hcomp : (Prod.fst ∘ fun g : Date × List VolRecord =>
      (g.1, (volsOf g.2).length, (volsOf g.2).sum)) = Prod.fst := rfl
  rw [hcomp]
  exact groupBySorted_keys_nodup _ _ _

/-- C5, confirmed.  The gap-filled series starts at the water year of the
first (minimum-date) observation: July 1 of the previous calendar year when
its month is at most June, else July 1 of the same calendar year; under the
calendar-validity hypotheses the first emitted plot row carries exactly that
start date. -/
theorem c5_water_year_start :
    ∀ df : List VolRecord, df ≠ [] →
      ((minimumDate (df.map (·.date))).month ≤ 6 →
        waterYearStart (minimumDate (df.map (·.date))) =
          ⟨(minimumDate (df.map (·.date))).year - 1, 7, 1⟩) ∧
      (¬ (minimumDate (df.map (·.date))).month ≤ 6 →
        waterYearStart (minimumDate (df.map (·.date))) =
          ⟨(minimumDate (df.map (·.date))).year, 7, 1⟩) ∧
      (1 ≤ (minimumDate (df.map (·.date))).year →
        1 ≤ (minimumDate (df.map (·.date))).day →
        (process_plot_data df).head?.map (·.date) =
          some (waterYearStart (minimumDate (df.map (·.date))))) := by
  intro df hne
  refine ⟨fun hm => ?_, fun hm => ?_, fun hy hd => process_plot_data_head hne hy hd⟩
  · rw [waterYearStart, if_pos hm]
  · rw [waterYearStart, if_neg hm]

/-- C5 witness: a first observation of 2020-03-15 yields start date
2019-07-01, a first observation of 2020-09-01 yields start date 2020-07-01,
and the March frame's first plot row carries the start date. -/
theorem c5_witness :
    marchDf ≠ [] ∧
    waterYearStart (minimumDate (marchDf.map (·.date))) = ⟨2019, 7, 1⟩ ∧
    waterYearStart (minimumDate (septDf.map (·.date))) = ⟨2020, 7, 1⟩ ∧
    (process_plot_data marchDf).head?.map (·.date) =
      some (waterYearStart (minimumDate (marchDf.map (·.date)))) := by
  refine ⟨by decide, ?_, ?_,
    (c5_water_year_start marchDf (by decide)).2.2 (by decide) (by decide)⟩
  · exact ((c5_water_year_start marchDf (by decide)).1 (by decide)).trans (by decide)
  · exact ((c5_water_year_start septDf (by decide)).2.1 (by decide)).trans (by decide)

/-- C6, confirmed.  Every row of the gap-filled plotting frame whose date is
absent from the daily aggregate has reading count 0 and missing volume and
rate; every row whose date carries aggregate count c and sum s keeps
readings c, volume s and rate s * (1000/86400). -/
theorem c6_reindex_fill :
    ∀ (df : List VolRecord) (row : PlotRow), row ∈ process_plot_data df →
      ((row.date ∉ (daily_counts df).map Prod.fst →
          row.readings = 0 ∧ row.volume = none ∧ row.rate = none) ∧
       (∀ (c : ℕ) (s : ℚ), (row.date, c, s) ∈ daily_counts df →
          row.readings = c ∧ row.volume = some s ∧
            row.rate = some (s * (1000 / 86400)))) := by
  intro df row hrow
  rw [process_plot_data] at hrow
  by_cases hemp : df.isEmpty = true
  · rw [if_pos hemp] at hrow
    cases hrow
  · rw [if_neg hemp] at hrow
    obtain ⟨s, hs, hdate, hread, hvolu, hrate⟩ := addRollingMean_mem hrow
    rw [reindexedRows, List.mem_map] at hs
    obtain ⟨d, hd, rfl⟩ := hs
    rw [reindexRow_date] at hdate
    subst hdate
    constructor
    · intro habs
      cases hfind : (daily_counts df).find? (fun g => g.1 = row.date) with
      | some g =>
        have hg : g.1 = row.date := by simpa using List.find?_some hfind
        exact absurd (hg ▸ List.mem_map_of_mem Prod.fst (List.mem_of_find?_eq_some hfind))
          habs
      | none =>
        simp only [reindexRow, hfind] at hread hvolu hrate
        exact ⟨hread, hvolu, hrate⟩
    · intro c s hcs
      cases hfind : (daily_counts df).find? (fun g => g.1 = row.date) with
      | none =>
        have := List.find?_eq_none.mp hfind _ hcs
        simp at this
      | some g =>
        have hg1 : g.1 = row.date := by simpa using List.find?_some hfind
        have hgeq : (row.date, c, s) = g :=
          eq_of_nodup_keys Prod.fst (daily_counts_keys_nodup df) hcs
            (List.mem_of_find?_eq_some hfind) (by simp [hg1])
        simp only [reindexRow, hfind] at hread hvolu hrate
        rw [← hgeq] at hread hvolu hrate
        exact ⟨hread, hvolu, hrate⟩

set_option maxRecDepth 10000 in
/-- C6 witness: on the one-record July frame the aggregate date keeps count 1
and sum 5 with the derived rate. -/
theorem c6_witness :
    (⟨⟨2020, 7, 1⟩, 1, some 5, "2020-07", 1, some (5 * (1000 / 86400)), none⟩ : PlotRow) ∈
        process_plot_data julyDf ∧
    ((⟨2020, 7, 1⟩ : Date), 1, (5 : ℚ)) ∈ daily_counts julyDf ∧
    ((⟨⟨2020, 7, 1⟩, 1, some 5, "2020-07", 1, some (5 * (1000 / 86400)), none⟩ :
        PlotRow).readings = 1 ∧
      (⟨⟨2020, 7, 1⟩, 1, some 5, "2020-07", 1, some (5 * (1000 / 86400)), none⟩ :
        PlotRow).volume = some 5 ∧
      (⟨⟨2020, 7, 1⟩, 1, some 5, "2020-07", 1, some (5 * (1000 / 86400)), none⟩ :
        PlotRow).rate = some (5 * (1000 / 86400))) := by
  have hmem : (⟨⟨2020, 7, 1⟩, 1, some 5, "2020-07", 1, some (5 * (1000 / 86400)), none⟩ :
      PlotRow) ∈ process_plot_data julyDf := by
    with_unfolding_all decide
  have hagg : ((⟨2020, 7, 1⟩ : Date), 1, (5 : ℚ)) ∈ daily_counts julyDf := by
    with_unfolding_all decide
  exact ⟨hmem, hagg, (c6_reindex_fill julyDf _ hmem).2 1 5 hagg⟩

/-! Section: Extraction-statistics lemmas -/

theorem generate_extraction_stats_months_nodup (df : List VolRecord) :
    ((generate_extraction_stats df).map (·.month)).Nodup := by
  rw [generate_extraction_stats, List.map_map]
  have hcomp : ((fun r : ExtractionRow => r.month) ∘
      fun g : String × List VolRecord =>
        ({ month := g.1, minExtraction := roundTo 3 (listMin (volsOf g.2)),
           meanExtraction := roundTo 1 (listMean (volsOf g.2)),
           maxExtraction := roundTo 1 (listMax (volsOf g.2)) } : ExtractionRow)) =
      Prod.fst := rfl
  rw [hcomp]
  exact groupBySorted_keys_nodup _ _ _

theorem mem_generate_extraction_stats {df : List VolRecord} {ex : ExtractionRow}
    (h : ex ∈ generate_extraction_stats df) :
    ∃ r ∈ df, volPos r = true ∧ monthKey r.date = ex.month := by
  rw [generate_extraction_stats, List.mem_map] at h
  obtain ⟨g, hg, rfl⟩ := h
  obtain ⟨hk, -⟩ := mem_groupBySorted (k := g.1) (g := g.2) hg
  obtain ⟨r, hr, hrk⟩ := List.mem_map.mp hk
  rw [filterPosVol, List.mem_filter] at hr
  exact ⟨r, hr.1, hr.2, hrk⟩

theorem combine_monthly_stats_months (m : List MonthlyStatRow) (e : List ExtractionRow) :
    (combine_monthly_stats m e).map (·.month) = m.map (·.month) := by
  rw [combine_monthly_stats, List.map_map]
  apply List.map_congr_left
  intro row hrow
  simp only [Function.comp_apply]
  cases e.find? fun ex => ex.month = row.month <;> rfl

/-- C7, confirmed.  The monthly extraction statistics are aggregated from the
pre-aggregation positive-volume records; combine_monthly_stats is a left join
on the month key: it keeps exactly the months of the monthly table, a month
with no positive-volume record gets missing extraction statistics (never 0),
and a month present in the extraction table takes its three extraction
values. -/
theorem c7_extraction_stats_merge :
    ∀ (df : List VolRecord) (monthly : List MonthlyStatRow),
      ((combine_monthly_stats monthly (generate_extraction_stats df)).map (·.month) =
        monthly.map (·.month)) ∧
      (∀ ex ∈ generate_extraction_stats df,
        ∃ r ∈ df, volPos r = true ∧ monthKey r.date = ex.month) ∧
      (∀ row ∈ combine_monthly_stats monthly (generate_extraction_stats df),
        ((∀ r ∈ df, volPos r = true → monthKey r.date ≠ row.month) →
          row.minExtraction = none ∧ row.meanExtraction = none ∧
            row.maxExtraction = none) ∧
        (∀ ex ∈ generate_extraction_stats df, ex.month = row.month →
          row.minExtraction = some ex.minExtraction ∧
          row.meanExtraction = some ex.meanExtraction ∧
          row.maxExtraction = some ex.maxExtraction)) := by
  intro df monthly
  refine ⟨combine_monthly_stats_months monthly _,
    fun ex hex => mem_generate_extraction_stats hex, ?_⟩
  intro row hrow
  rw [combine_monthly_stats, List.mem_map] at hrow
  obtain ⟨mrow, hm, rfl⟩ := hrow
  rcases hfind : (generate_extraction_stats df).find? (fun ex => ex.month = mrow.month)
    with _ | ex
  · rw [hfind]
    constructor
    · intro _
      exact ⟨rfl, rfl, rfl⟩
    · intro ex hex hexm
      have hne := List.find?_eq_none.mp hfind ex hex
      simp only [hexm] at hne
      simp at hne
  · rw [hfind]
    have hexm : ex.month = mrow.month := by
      simpa using List.find?_some hfind
    constructor
    · intro hnone
      obtain ⟨r, hr, hp, hk⟩ :=
        mem_generate_extraction_stats (List.mem_of_find?_eq_some hfind)
      exact absurd (hk.trans hexm) (hnone r hr hp)
    · intro ex2 hex2 hexm2
      have hx : ex2 = ex :=
        eq_of_nodup_keys (fun e : ExtractionRow => e.month)
          (generate_extraction_stats_months_nodup df) hex2
          (List.mem_of_find?_eq_some hfind) (hexm2.trans hexm.symm)
      rw [hx]
      exact ⟨rfl, rfl, rfl⟩

set_option maxRecDepth 10000 in
/-- C7 witness: with positive volume only in March 2021, the April 2021 row
of the combined table keeps missing extraction statistics. -/
theorem c7_witness :
    (⟨"2021-04", "Volume", 1, 1, none, none, none, 0, 0, 0⟩ : CombinedMonthlyRow) ∈
        combine_monthly_stats c7monthly (generate_extraction_stats c7df) ∧
    (∀ r ∈ c7df, volPos r = true → monthKey r.date ≠ "2021-04") ∧
    ((⟨"2021-04", "Volume", 1, 1, none, none, none, 0, 0, 0⟩ :
        CombinedMonthlyRow).minExtraction = none ∧
      (⟨"2021-04", "Volume", 1, 1, none, none, none, 0, 0, 0⟩ :
        CombinedMonthlyRow).meanExtraction = none ∧
      (⟨"2021-04", "Volume", 1, 1, none, none, none, 0, 0, 0⟩ :
        CombinedMonthlyRow).maxExtraction = none) := by
  have hmem : (⟨"2021-04", "Volume", 1, 1, none, none, none, 0, 0, 0⟩ :
      CombinedMonthlyRow) ∈
      combine_monthly_stats c7monthly (generate_extraction_stats c7df) := by
    with_unfolding_all decide
  have hno : ∀ r ∈ c7df, volPos r = true → monthKey r.date ≠ "2021-04" := by
    decide
  exact ⟨hmem, hno,
    ((c7_extraction_stats_merge c7df c7monthly).2.2 _ hmem).1 hno⟩

end WaterUseQA
